import Mathlib

/-!
Verification of the element-extraction and code-synthesis engine of the
cypress-mcp repository.  The repository ships several near-identical
generation pipelines; the embeddings below follow them separately:

* namespace `IndexJs`   : the generator of src/index.js (camelCase identifiers,
  no workflow methods);
* namespace `Part000B`  : the generic locator resolver of the second file in
  src/unnamed/part_000 (the getLocatorAndRawName variant);
* namespace `Part001`   : the generator plus test synthesizer of
  src/unnamed/part_001 (snake-case identifiers, workflow methods, tests).

DOM documents are modelled as records of the attribute reads the code
performs; machine strings are Lean strings; the JavaScript runtime error
raised by calling a method of null is modelled with Except.
-/

set_option maxRecDepth 100000

/-- Truthiness of a JavaScript attribute read: `undefined` and the empty
string are falsy. -/
def jsTruthy : Option String → Bool
  | none => false
  | some s => s != ""

/-- JavaScript `a || b` for an attribute read `a` and a string default `b`. -/
def jsOr (a : Option String) (dflt : String) : String :=
  if jsTruthy a then a.getD "" else dflt

/-- JavaScript `a || b` for two attribute reads. -/
def jsOrOpt (a b : Option String) : Option String :=
  if jsTruthy a then a else b

/-- JavaScript `s.charAt(0).toUpperCase() + s.slice(1)` (ASCII model). -/
def capFirst (s : String) : String :=
  match s.data with
  | [] => ""
  | c :: t => String.mk (c.toUpper :: t)

/-- Lowercase the first character of a character list; models the
`replace(/^(.)/, m => m.toLowerCase())` step of toCamelCase. -/
def lowerFirstList : List Char → List Char
  | [] => []
  | c :: t => c.toLower :: t

/-- The JavaScript regex class `\s` restricted to the ASCII plane. -/
def isJsSpace (c : Char) : Bool :=
  c = ' ' || c = '\t' || c = '\n' || c = '\r' || c = '\x0b' || c = '\x0c'

/-- JavaScript `s.trim()` (ASCII whitespace), written on character lists so
it evaluates by kernel reduction. -/
def jsTrim (s : String) : String :=
  String.mk (((s.data.dropWhile isJsSpace).reverse.dropWhile isJsSpace).reverse)

/-- JavaScript `s.toLowerCase()` (ASCII model). -/
def jsToLower (s : String) : String :=
  String.mk (s.data.map Char.toLower)

/-- Split a character list at every occurrence of a separator character
(JavaScript `s.split(sep)` for a one-character separator). -/
def splitOnChar (sep : Char) : List Char → List (List Char)
  | [] => [[]]
  | c :: t =>
    if c = sep then [] :: splitOnChar sep t
    else
      match splitOnChar sep t with
      | [] => [[c]]
      | h :: r => (c :: h) :: r

/-- The character class of the regex in toCamelCase (hyphen, underscore or
whitespace). -/
def isSepChar (c : Char) : Bool :=
  c = '-' || c = '_' || isJsSpace c

/-- One left-to-right pass of the global replace
`replace(/[-_\s]+(.)?/g, (_, c) => c ? c.toUpperCase() : "")`:
the flag records that a separator run is pending, so the next ordinary
character is uppercased. -/
def camelAux : Bool → List Char → List Char
  | _, [] => []
  | pend, c :: t =>
    if isSepChar c then camelAux true t
    else (if pend then c.toUpper else c) :: camelAux false t

/-- toCamelCase of src/index.js (and of the getLocatorAndRawName variant). -/
def toCamelCase (s : String) : String :=
  String.mk (lowerFirstList (camelAux false s.data))

/-- JavaScript `s.replace(/[^a-zA-Z0-9]/g, "_")`, used by the snake-case
identifier builders of part_000 and part_001. -/
def sanitizeIdent (s : String) : String :=
  String.mk (s.data.map (fun c => if c.isAlphanum then c else '_'))

/-- One pass of `replace(/[^a-z0-9]+/g, "_")` followed by stripping leading
and trailing underscores: `started` records that a kept character has been
emitted, `pend` that a run of dropped characters is pending. -/
def sanAux : Bool → Bool → List Char → List Char
  | _, _, [] => []
  | started, pend, c :: t =>
    if c.isLower || c.isDigit then
      if started && pend then '_' :: c :: sanAux true false t
      else c :: sanAux true false t
    else sanAux started true t

/-- sanitizeFeatureName of the repository:
`name.toLowerCase().replace(/[^a-z0-9]+/g, "_").replace(/^_+|_+$/g, "")`. -/
def sanitizeFeatureName (s : String) : String :=
  String.mk (sanAux false false (jsToLower s).data)

/-- Substring test on character lists (JavaScript `String.includes`). -/
def containsSub (pat : List Char) : List Char → Bool
  | [] => pat.isEmpty
  | c :: t => pat.isPrefixOf (c :: t) || containsSub pat t

/-- JavaScript `s.includes(pat)`. -/
def strContains (s pat : String) : Bool :=
  containsSub pat.data s.data

/-- JavaScript `s.startsWith(pre)`. -/
def strStarts (s pre : String) : Bool :=
  pre.data.isPrefixOf s.data

/-- Does the regex `kw\s*\(` match at the head of the list? -/
def callAt (kw : List Char) (l : List Char) : Bool :=
  kw.isPrefixOf l && ((l.drop kw.length).dropWhile isJsSpace).head? == some '('

/-- JavaScript `/kw\s*\(/.test(s)` scanning over a character list. -/
def hasCall (kw : List Char) : List Char → Bool
  | [] => false
  | c :: t => callAt kw (c :: t) || hasCall kw t

/-- One DOM element, recorded as the attribute reads the generators perform. -/
structure Elem where
  dataCy : Option String := none
  dataTest : Option String := none
  dataTestId : Option String := none
  idAttr : Option String := none
  nameAttr : Option String := none
  placeholder : Option String := none
  typeAttr : Option String := none
  classAttr : Option String := none
  href : Option String := none
  text : String := ""
deriving Repr, DecidableEq

/-- Tag of a form field returned by the query `form.find(input,select,textarea)`. -/
inductive FieldTag where
  | input
  | select
  | textarea
deriving Repr, DecidableEq

/-- A descendant field of a form. -/
structure FormField where
  tag : FieldTag
  el : Elem
deriving Repr, DecidableEq

/-- A descendant button or input of a form, candidate submit control. -/
structure SubmitEl where
  isButton : Bool
  el : Elem
deriving Repr, DecidableEq

/-- One form element with the reads the analyzers perform on it. -/
structure Form where
  nameAttr : Option String := none
  idAttr : Option String := none
  legend : Option String := none
  text : String := ""
  fields : List FormField := []
  controls : List SubmitEl := []
deriving Repr, DecidableEq

/-- A parsed document, split into the five interactive categories visited by
the generators (each list in document order) plus the reads of
getFeatureName. -/
structure Doc where
  buttons : List Elem := []
  inputs : List Elem := []
  links : List Elem := []
  selects : List Elem := []
  textareas : List Elem := []
  forms : List Form := []
  h1 : Option String := none
  h2 : Option String := none
  title : Option String := none
deriving Repr, DecidableEq

/-- A URL already parsed for hostname derivation (`new URL(url)`); `raw` is
the original string interpolated into the generated test file. -/
structure Url where
  raw : String := ""
  hostname : String := ""
  pathname : String := ""
deriving Repr, DecidableEq

/-- The fixed keyword vocabulary of getFeatureName. -/
def keywords : List String :=
  ["login", "register", "signup", "signin", "user", "profile", "dashboard",
   "settings", "admin", "account", "reset", "forgot", "password", "contact",
   "about", "home"]

/-- Inner double loop of getFeatureName: for the first path part containing
any keyword, return the first such keyword in vocabulary order. -/
def findKeywordInParts : List String → Option String
  | [] => none
  | p :: t =>
    match keywords.find? (fun kw => strContains (jsToLower p) kw) with
    | some kw => some kw
    | none => findKeywordInParts t

/-- getFeatureName of src/index.js and src/unnamed/part_001 (their bodies are
identical): infer a feature name from the document, else from the URL. -/
def getFeatureName (d : Doc) (u : Url) : String :=
  let fname : Option String := match d.forms.head? with
    | some f => f.nameAttr
    | none => none
  let fid : Option String := match d.forms.head? with
    | some f => f.idAttr
    | none => none
  let nm := jsOrOpt fname fid
  if jsTruthy nm then sanitizeFeatureName (nm.getD "")
  else
    let legend := jsTrim ((d.forms.filterMap Form.legend).head?.getD "")
    if legend != "" then sanitizeFeatureName legend
    else
      let h1t := jsTrim (d.h1.getD "")
      if h1t != "" then sanitizeFeatureName h1t
      else
        let h2t := jsTrim (d.h2.getD "")
        if h2t != "" then sanitizeFeatureName h2t
        else
          let titlet := jsTrim (d.title.getD "")
          if titlet != "" then sanitizeFeatureName titlet
          else
            let pathParts := ((splitOnChar '/' u.pathname.data).map String.mk).filter (fun p => p != "")
            match findKeywordInParts pathParts with
            | some kw => kw
            | none =>
              match keywords.find? (fun kw => strContains (jsToLower u.hostname) kw) with
              | some kw => kw
              | none =>
                match pathParts.head? with
                | some p => sanitizeFeatureName p
                | none => "page"

/-- One locator-map entry: the synthesized identifier, the raw label that
produced it, and the rendered locator expression. -/
structure LocEntry where
  elementName : String
  rawName : String
  locator : String
deriving Repr, DecidableEq

/-- One generated method line together with the identifier it references. -/
structure MethodEntry where
  elementName : String
  line : String
deriving Repr, DecidableEq

/-- One entry of the elementMeta array: the element type string and the
synthesized identifier. -/
structure MetaEntry where
  ty : String
  elementName : String
deriving Repr, DecidableEq

/-- Locator-map line `    name: () => locator`. -/
def mkElementLine (n loc : String) : String :=
  "    " ++ n ++ ": () => " ++ loc

/-- Interaction method `clickName() ...`. -/
def mkClick (n : String) : MethodEntry :=
  ⟨n, "    click" ++ capFirst n ++ "() \x7b return this.#elements." ++ n ++ "().click() \x7d"⟩

/-- Value getter `getTextName() ...`. -/
def mkGetText (n : String) : MethodEntry :=
  ⟨n, "    getText" ++ capFirst n ++ "() \x7b return this.#elements." ++ n ++ "().invoke(\x27text\x27) \x7d"⟩

/-- Public getter of src/index.js, `get name() ...` (identifier not capitalized). -/
def mkGetterLower (n : String) : MethodEntry :=
  ⟨n, "    get " ++ n ++ "() \x7b return this.#elements." ++ n ++ "() \x7d"⟩

/-- Public getter of part_001, `get Name() ...` (identifier capitalized). -/
def mkGetterCap (n : String) : MethodEntry :=
  ⟨n, "    get " ++ capFirst n ++ "() \x7b return this.#elements." ++ n ++ "() \x7d"⟩

/-- Interaction method `checkName() ...`. -/
def mkCheck (n : String) : MethodEntry :=
  ⟨n, "    check" ++ capFirst n ++ "() \x7b return this.#elements." ++ n ++ "().check() \x7d"⟩

/-- Interaction method `uncheckName() ...`. -/
def mkUncheck (n : String) : MethodEntry :=
  ⟨n, "    uncheck" ++ capFirst n ++ "() \x7b return this.#elements." ++ n ++ "().uncheck() \x7d"⟩

/-- State getter `isCheckedName() ...`. -/
def mkIsChecked (n : String) : MethodEntry :=
  ⟨n, "    isChecked" ++ capFirst n ++ "() \x7b return this.#elements." ++ n ++ "().should(\x27have.prop\x27, \x27checked\x27) \x7d"⟩

/-- Interaction method `typeName(text) ...`. -/
def mkType (n : String) : MethodEntry :=
  ⟨n, "    type" ++ capFirst n ++ "(text) \x7b return this.#elements." ++ n ++ "().type(text) \x7d"⟩

/-- Interaction method `clearName() ...`. -/
def mkClear (n : String) : MethodEntry :=
  ⟨n, "    clear" ++ capFirst n ++ "() \x7b return this.#elements." ++ n ++ "().clear() \x7d"⟩

/-- Value getter `getValueName() ...`. -/
def mkGetValue (n : String) : MethodEntry :=
  ⟨n, "    getValue" ++ capFirst n ++ "() \x7b return this.#elements." ++ n ++ "().invoke(\x27val\x27) \x7d"⟩

/-- Interaction method `selectName(value) ...`. -/
def mkSelect (n : String) : MethodEntry :=
  ⟨n, "    select" ++ capFirst n ++ "(value) \x7b return this.#elements." ++ n ++ "().select(value) \x7d"⟩

/-- Locator `cy.get('[data-cy="v"]')`. -/
def locDataCy (v : String) : String :=
  "cy.get(\x27[data-cy=\"" ++ v ++ "\"]\x27)"

/-- Locator `cy.get('[data-test="v"]')`. -/
def locDataTest (v : String) : String :=
  "cy.get(\x27[data-test=\"" ++ v ++ "\"]\x27)"

/-- Locator `cy.get('[data-testid="v"]')`. -/
def locTestId (v : String) : String :=
  "cy.get(\x27[data-testid=\"" ++ v ++ "\"]\x27)"

/-- Locator `cy.get('#v')`. -/
def locId (v : String) : String :=
  "cy.get(\x27#" ++ v ++ "\x27)"

/-- Locator `cy.contains('tag', 'v')`. -/
def locContains (tag v : String) : String :=
  "cy.contains(\x27" ++ tag ++ "\x27, \x27" ++ v ++ "\x27)"

/-- Locator `cy.get('tag[attr="v"]')`. -/
def locAttr (tag attr v : String) : String :=
  "cy.get(\x27" ++ tag ++ "[" ++ attr ++ "=\"" ++ v ++ "\"]\x27)"

/-- Locator `cy.get('tag.cls')`. -/
def locClass (tag cls : String) : String :=
  "cy.get(\x27" ++ tag ++ "." ++ cls ++ "\x27)"

/-- Positional locator `cy.get('tag').eq(i)`. -/
def locEq (tag : String) (i : Nat) : String :=
  "cy.get(\x27" ++ tag ++ "\x27).eq(" ++ toString i ++ ")"

/-- Positional locator `cy.get('input[type="ty"]').eq(i)`. -/
def locTypeEq (ty : String) (i : Nat) : String :=
  "cy.get(\x27input[type=\"" ++ ty ++ "\"]\x27).eq(" ++ toString i ++ ")"

/-- JavaScript `s.split(" ")[0]`. -/
def firstClassToken (s : String) : String :=
  String.mk ((splitOnChar ' ' s.data).headD [])

/-- Insertion-order map update used by the reduce that builds the meta map
(existing key keeps its position, its value is overwritten). -/
def upsert : List (String × String) → String × String → List (String × String)
  | [], p => [p]
  | q :: t, p => if q.1 == p.1 then (q.1, p.2) :: t else q :: upsert t p

/-- JSON.stringify of the meta map with two-space indentation. -/
def jsonMeta : List (String × String) → String
  | [] => "\x7b\x7d"
  | ps => "\x7b\n"
      ++ String.intercalate ",\n" (ps.map (fun p => "  \"" ++ p.1 ++ "\": \"" ++ p.2 ++ "\""))
      ++ "\n\x7d"

/-- Everything one element contributes to the generated class. -/
structure ElemGen where
  entry : LocEntry
  getters : List MethodEntry
  valueGetters : List MethodEntry
  interactions : List MethodEntry
  meta : List MetaEntry
deriving Repr, DecidableEq

/-- Iterate a per-element generator over one category, threading the shared
elementCounter (incremented once per element). -/
def runCat (f : Nat → Elem → ElemGen) : Nat → List Elem → List ElemGen
  | _, [] => []
  | c, e :: t => f c e :: runCat f (c + 1) t

namespace IndexJs

/-- Locator and raw name of a button (src/index.js, BUTTONS block):
data-testid, then id, then trimmed text, then first class token, then the
positional fallback indexed by the shared elementCounter. -/
def buttonLoc (c : Nat) (e : Elem) : String × String :=
  if jsTruthy e.dataTestId then
    (locTestId (e.dataTestId.getD ""), "button " ++ e.dataTestId.getD "")
  else if jsTruthy e.idAttr then
    (locId (e.idAttr.getD ""), "button " ++ e.idAttr.getD "")
  else if jsTrim e.text != "" then
    (locContains "button" (jsTrim e.text), "button " ++ jsTrim e.text)
  else if jsTruthy e.classAttr then
    (locClass "button" (firstClassToken (e.classAttr.getD "")),
     "button " ++ firstClassToken (e.classAttr.getD ""))
  else
    (locEq "button" (c - 1), "button " ++ toString c)

/-- Contribution of one button: locator entry, clickX and getTextX (no getter,
no meta entry -- the BUTTONS block of src/index.js records no elementMeta). -/
def genButton (c : Nat) (e : Elem) : ElemGen :=
  let p := buttonLoc c e
  let n := toCamelCase p.2
  ⟨⟨n, p.2, p.1⟩, [], [mkGetText n], [mkClick n], []⟩

/-- Locator and raw name of an input (src/index.js, INPUTS block). -/
def inputLoc (c : Nat) (ty : String) (e : Elem) : String × String :=
  if jsTruthy e.dataTestId then
    (locTestId (e.dataTestId.getD ""), "input " ++ e.dataTestId.getD "")
  else if jsTruthy e.idAttr then
    (locId (e.idAttr.getD ""), "input " ++ e.idAttr.getD "")
  else if jsTruthy e.nameAttr then
    (locAttr "input" "name" (e.nameAttr.getD ""), "input " ++ e.nameAttr.getD "")
  else if jsTruthy e.placeholder then
    (locAttr "input" "placeholder" (e.placeholder.getD ""), "input " ++ e.placeholder.getD "")
  else
    (locTypeEq ty (c - 1), "input " ++ ty ++ " " ++ toString c)

/-- Contribution of one input: getter, check/uncheck/isChecked for checkbox
and radio inputs, type/clear/getValue otherwise. -/
def genInput (c : Nat) (e : Elem) : ElemGen :=
  let ty := jsOr e.typeAttr "text"
  let p := inputLoc c ty e
  let n := toCamelCase p.2
  if ty == "checkbox" || ty == "radio" then
    ⟨⟨n, p.2, p.1⟩, [mkGetterLower n], [mkIsChecked n], [mkCheck n, mkUncheck n], [⟨ty, n⟩]⟩
  else
    ⟨⟨n, p.2, p.1⟩, [mkGetterLower n], [mkGetValue n], [mkType n, mkClear n], [⟨ty, n⟩]⟩

/-- Locator and raw name of a link (src/index.js, LINKS block). -/
def linkLoc (c : Nat) (e : Elem) : String × String :=
  if jsTruthy e.dataTestId then
    (locTestId (e.dataTestId.getD ""), "link " ++ e.dataTestId.getD "")
  else if jsTruthy e.idAttr then
    (locId (e.idAttr.getD ""), "link " ++ e.idAttr.getD "")
  else if jsTrim e.text != "" then
    (locContains "a" (jsTrim e.text), "link " ++ jsTrim e.text)
  else if jsTruthy e.href then
    (locAttr "a" "href" (e.href.getD ""), "link " ++ e.href.getD "")
  else
    (locEq "a" (c - 1), "link " ++ toString c)

/-- Contribution of one link. -/
def genLink (c : Nat) (e : Elem) : ElemGen :=
  let p := linkLoc c e
  let n := toCamelCase p.2
  ⟨⟨n, p.2, p.1⟩, [mkGetterLower n], [mkGetText n], [mkClick n], [⟨"link", n⟩]⟩

/-- Locator and raw name of a select (src/index.js, SELECTS block). -/
def selectLoc (c : Nat) (e : Elem) : String × String :=
  if jsTruthy e.dataTestId then
    (locTestId (e.dataTestId.getD ""), "select " ++ e.dataTestId.getD "")
  else if jsTruthy e.idAttr then
    (locId (e.idAttr.getD ""), "select " ++ e.idAttr.getD "")
  else if jsTruthy e.nameAttr then
    (locAttr "select" "name" (e.nameAttr.getD ""), "select " ++ e.nameAttr.getD "")
  else
    (locEq "select" (c - 1), "select " ++ toString c)

/-- Contribution of one select. -/
def genSelect (c : Nat) (e : Elem) : ElemGen :=
  let p := selectLoc c e
  let n := toCamelCase p.2
  ⟨⟨n, p.2, p.1⟩, [mkGetterLower n], [mkGetValue n], [mkSelect n], [⟨"select", n⟩]⟩

/-- Locator and raw name of a textarea (src/index.js, TEXTAREAS block). -/
def textareaLoc (c : Nat) (e : Elem) : String × String :=
  if jsTruthy e.dataTestId then
    (locTestId (e.dataTestId.getD ""), "textarea " ++ e.dataTestId.getD "")
  else if jsTruthy e.idAttr then
    (locId (e.idAttr.getD ""), "textarea " ++ e.idAttr.getD "")
  else if jsTruthy e.nameAttr then
    (locAttr "textarea" "name" (e.nameAttr.getD ""), "textarea " ++ e.nameAttr.getD "")
  else if jsTruthy e.placeholder then
    (locAttr "textarea" "placeholder" (e.placeholder.getD ""), "textarea " ++ e.placeholder.getD "")
  else
    (locEq "textarea" (c - 1), "textarea " ++ toString c)

/-- Contribution of one textarea. -/
def genTextarea (c : Nat) (e : Elem) : ElemGen :=
  let p := textareaLoc c e
  let n := toCamelCase p.2
  ⟨⟨n, p.2, p.1⟩, [mkGetterLower n], [mkGetValue n], [mkType n, mkClear n], [⟨"textarea", n⟩]⟩

/-- The five category passes of src/index.js in order, threading the single
elementCounter (starting at 1) across all categories. -/
def elemGens (d : Doc) : List ElemGen :=
  let c0 := 1
  let c1 := c0 + d.buttons.length
  let c2 := c1 + d.inputs.length
  let c3 := c2 + d.links.length
  let c4 := c3 + d.selects.length
  runCat genButton c0 d.buttons ++ runCat genInput c1 d.inputs
    ++ runCat genLink c2 d.links ++ runCat genSelect c3 d.selects
    ++ runCat genTextarea c4 d.textareas

/-- The result of generatePageObjectClass of src/index.js, with the local
accumulator arrays exposed alongside the rendered class source. -/
structure Gen where
  featureName : String
  className : String
  elements : List LocEntry
  getters : List MethodEntry
  valueGetters : List MethodEntry
  interactionMethods : List MethodEntry
  elementMeta : List MetaEntry
  classCode : String
deriving Repr, DecidableEq

/-- generatePageObjectClass of src/index.js. -/
def generatePageObjectClass (d : Doc) (u : Url) (customFeatureName : Option String) : Gen :=
  let featureName := jsOr customFeatureName (getFeatureName d u)
  let className := capFirst featureName ++ "Page"
  let gens := elemGens d
  let elements := gens.map (·.entry)
  let getters := (gens.map (·.getters)).flatten
  let valueGetters := (gens.map (·.valueGetters)).flatten
  let interactionMethods := (gens.map (·.interactions)).flatten
  let elementMeta := (gens.map (·.meta)).flatten
  let metaPairs := elementMeta.foldl (fun acc m => upsert acc (m.elementName, m.ty)) []
  let classCode := "export class " ++ className
      ++ " \x7b\n  // Private elements\n  #elements = \x7b\n"
      ++ String.intercalate ",\n" (elements.map (fun e => mkElementLine e.elementName e.locator))
      ++ "\n  \x7d\n\n  // Element meta (currently not used for bulk actions)\n  #meta = "
      ++ jsonMeta metaPairs
      ++ "\n\n  // Public getters\n"
      ++ String.intercalate "\n" (getters.map (·.line))
      ++ "\n\n  // Value/State getters\n"
      ++ String.intercalate "\n" (valueGetters.map (·.line))
      ++ "\n\n  // Interaction methods (per-element actions)\n"
      ++ String.intercalate "\n" (interactionMethods.map (·.line))
      ++ "\n\x7d\n"
  ⟨featureName, className, elements, getters, valueGetters, interactionMethods,
   elementMeta, classCode⟩

end IndexJs

/-- Bare locator `cy.get('tag')` (last resort of getLocatorAndRawName). -/
def locGet (tag : String) : String :=
  "cy.get(\x27" ++ tag ++ "\x27)"

/-- A locator expression together with the raw label that drove the match. -/
structure LocRaw where
  locator : String
  rawName : String
deriving Repr, DecidableEq

namespace Part000B

/-- getLocatorAndRawName of the second file of src/unnamed/part_000: the
generic per-element resolver, checking data-cy, data-test, data-testid, id,
then the category-specific fallbacks, then the positional fallback. -/
def getLocatorAndRawName (el : Elem) (tag : String) (extraType : Option String)
    (extraIndex : Option Nat) : LocRaw :=
  let text := jsTrim el.text
  let ty := jsOrOpt extraType el.typeAttr
  if jsTruthy el.dataCy then
    ⟨locDataCy (el.dataCy.getD ""), tag ++ " " ++ el.dataCy.getD ""⟩
  else if jsTruthy el.dataTest then
    ⟨locDataTest (el.dataTest.getD ""), tag ++ " " ++ el.dataTest.getD ""⟩
  else if jsTruthy el.dataTestId then
    ⟨locTestId (el.dataTestId.getD ""), tag ++ " " ++ el.dataTestId.getD ""⟩
  else if jsTruthy el.idAttr then
    ⟨locId (el.idAttr.getD ""), tag ++ " " ++ el.idAttr.getD ""⟩
  else if jsTruthy el.nameAttr && (tag == "input" || tag == "select" || tag == "textarea") then
    ⟨locAttr tag "name" (el.nameAttr.getD ""), tag ++ " " ++ el.nameAttr.getD ""⟩
  else if jsTruthy el.placeholder && (tag == "input" || tag == "textarea") then
    ⟨locAttr tag "placeholder" (el.placeholder.getD ""), tag ++ " " ++ el.placeholder.getD ""⟩
  else if text != "" && tag == "button" then
    ⟨locContains "button" text, "button " ++ text⟩
  else if text != "" && tag == "a" then
    ⟨locContains "a" text, "link " ++ text⟩
  else if jsTruthy el.href && tag == "a" then
    ⟨locAttr "a" "href" (el.href.getD ""), "link " ++ el.href.getD ""⟩
  else if jsTruthy el.classAttr && tag == "button" then
    ⟨locClass "button" (firstClassToken (el.classAttr.getD "")),
     "button " ++ firstClassToken (el.classAttr.getD "")⟩
  else if jsTruthy ty && tag == "input" && extraIndex.isSome then
    ⟨locTypeEq (ty.getD "") (extraIndex.getD 0),
     "input " ++ ty.getD "" ++ " " ++ toString (extraIndex.getD 0 + 1)⟩
  else if extraIndex.isSome then
    ⟨locEq tag (extraIndex.getD 0), tag ++ " " ++ toString (extraIndex.getD 0 + 1)⟩
  else
    ⟨locGet tag, tag⟩

/-- First defined result of an ordered list of locator strategies. -/
def firstSome : List (Option LocRaw) → Option LocRaw
  | [] => none
  | o :: t => match o with
    | some r => some r
    | none => firstSome t

/-- The locator-priority policy as the specification words it: a fixed
ordered strategy list, independent of category for the four attribute
strategies, then the category-specific fallbacks in their stated order. -/
def specStrategies (el : Elem) (tag : String) : List (Option LocRaw) :=
  [ if jsTruthy el.dataCy then
      some ⟨locDataCy (el.dataCy.getD ""), tag ++ " " ++ el.dataCy.getD ""⟩
    else none,
    if jsTruthy el.dataTest then
      some ⟨locDataTest (el.dataTest.getD ""), tag ++ " " ++ el.dataTest.getD ""⟩
    else none,
    if jsTruthy el.dataTestId then
      some ⟨locTestId (el.dataTestId.getD ""), tag ++ " " ++ el.dataTestId.getD ""⟩
    else none,
    if jsTruthy el.idAttr then
      some ⟨locId (el.idAttr.getD ""), tag ++ " " ++ el.idAttr.getD ""⟩
    else none,
    if jsTruthy el.nameAttr && (tag == "input" || tag == "select" || tag == "textarea") then
      some ⟨locAttr tag "name" (el.nameAttr.getD ""), tag ++ " " ++ el.nameAttr.getD ""⟩
    else none,
    if jsTruthy el.placeholder && (tag == "input" || tag == "textarea") then
      some ⟨locAttr tag "placeholder" (el.placeholder.getD ""), tag ++ " " ++ el.placeholder.getD ""⟩
    else none,
    if jsTrim el.text != "" && tag == "button" then
      some ⟨locContains "button" (jsTrim el.text), "button " ++ jsTrim el.text⟩
    else none,
    if jsTrim el.text != "" && tag == "a" then
      some ⟨locContains "a" (jsTrim el.text), "link " ++ jsTrim el.text⟩
    else none,
    if jsTruthy el.href && tag == "a" then
      some ⟨locAttr "a" "href" (el.href.getD ""), "link " ++ el.href.getD ""⟩
    else none,
    if jsTruthy el.classAttr && tag == "button" then
      some ⟨locClass "button" (firstClassToken (el.classAttr.getD "")),
            "button " ++ firstClassToken (el.classAttr.getD "")⟩
    else none ]

/-- Positional fallback as the specification words it: select the tag
category and index by the per-category 0-based index. -/
def specPositional (el : Elem) (tag : String) (extraType : Option String) (i : Nat) : LocRaw :=
  let ty := jsOrOpt extraType el.typeAttr
  if jsTruthy ty && tag == "input" then
    ⟨locTypeEq (ty.getD "") i, "input " ++ ty.getD "" ++ " " ++ toString (i + 1)⟩
  else
    ⟨locEq tag i, tag ++ " " ++ toString (i + 1)⟩

/-- The whole spec-worded resolver: first applicable strategy, else the
positional fallback. -/
def specResolve (el : Elem) (tag : String) (extraType : Option String) (i : Nat) : LocRaw :=
  match firstSome (specStrategies el tag) with
  | some r => r
  | none => specPositional el tag extraType i

end Part000B

namespace Part001

/-- Locator and snake-case identifier of a button (part_001, BUTTONS block).
The id branch uses the raw id; the text branch normalizes and lowercases. -/
def buttonLoc (c : Nat) (e : Elem) : String × String :=
  if jsTruthy e.dataTestId then
    (locTestId (e.dataTestId.getD ""), "button_" ++ sanitizeIdent (e.dataTestId.getD ""))
  else if jsTruthy e.idAttr then
    (locId (e.idAttr.getD ""), "button_" ++ e.idAttr.getD "")
  else if jsTrim e.text != "" then
    (locContains "button" (jsTrim e.text), "button_" ++ jsToLower (sanitizeIdent (jsTrim e.text)))
  else if jsTruthy e.classAttr then
    (locClass "button" (firstClassToken (e.classAttr.getD "")),
     "button_" ++ firstClassToken (e.classAttr.getD ""))
  else
    (locEq "button" (c - 1), "button_" ++ toString c)

/-- Contribution of one button (part_001 records a capitalized getter and a
meta entry for buttons; rawName coincides with the identifier since this
variant builds the identifier directly). -/
def genButton (c : Nat) (e : Elem) : ElemGen :=
  let p := buttonLoc c e
  let n := p.2
  ⟨⟨n, n, p.1⟩, [mkGetterCap n], [mkGetText n], [mkClick n], [⟨"button", n⟩]⟩

/-- Locator and snake-case identifier of an input (part_001, INPUTS block). -/
def inputLoc (c : Nat) (ty : String) (e : Elem) : String × String :=
  if jsTruthy e.dataTestId then
    (locTestId (e.dataTestId.getD ""), "input_" ++ sanitizeIdent (e.dataTestId.getD ""))
  else if jsTruthy e.idAttr then
    (locId (e.idAttr.getD ""), "input_" ++ e.idAttr.getD "")
  else if jsTruthy e.nameAttr then
    (locAttr "input" "name" (e.nameAttr.getD ""), "input_" ++ e.nameAttr.getD "")
  else if jsTruthy e.placeholder then
    (locAttr "input" "placeholder" (e.placeholder.getD ""),
     "input_" ++ jsToLower (sanitizeIdent (e.placeholder.getD "")))
  else
    (locTypeEq ty (c - 1), "input_" ++ ty ++ "_" ++ toString c)

/-- Contribution of one input. -/
def genInput (c : Nat) (e : Elem) : ElemGen :=
  let ty := jsOr e.typeAttr "text"
  let p := inputLoc c ty e
  let n := p.2
  if ty == "checkbox" || ty == "radio" then
    ⟨⟨n, n, p.1⟩, [mkGetterCap n], [mkIsChecked n], [mkCheck n, mkUncheck n], [⟨ty, n⟩]⟩
  else
    ⟨⟨n, n, p.1⟩, [mkGetterCap n], [mkGetValue n], [mkType n, mkClear n], [⟨ty, n⟩]⟩

/-- Locator and snake-case identifier of a link (part_001, LINKS block). -/
def linkLoc (c : Nat) (e : Elem) : String × String :=
  if jsTruthy e.dataTestId then
    (locTestId (e.dataTestId.getD ""), "link_" ++ sanitizeIdent (e.dataTestId.getD ""))
  else if jsTruthy e.idAttr then
    (locId (e.idAttr.getD ""), "link_" ++ e.idAttr.getD "")
  else if jsTrim e.text != "" then
    (locContains "a" (jsTrim e.text), "link_" ++ jsToLower (sanitizeIdent (jsTrim e.text)))
  else if jsTruthy e.href then
    (locAttr "a" "href" (e.href.getD ""), "link_" ++ jsToLower (sanitizeIdent (e.href.getD "")))
  else
    (locEq "a" (c - 1), "link_" ++ toString c)

/-- Contribution of one link. -/
def genLink (c : Nat) (e : Elem) : ElemGen :=
  let p := linkLoc c e
  let n := p.2
  ⟨⟨n, n, p.1⟩, [mkGetterCap n], [mkGetText n], [mkClick n], [⟨"link", n⟩]⟩

/-- Locator and snake-case identifier of a select (part_001, SELECTS block). -/
def selectLoc (c : Nat) (e : Elem) : String × String :=
  if jsTruthy e.dataTestId then
    (locTestId (e.dataTestId.getD ""), "select_" ++ sanitizeIdent (e.dataTestId.getD ""))
  else if jsTruthy e.idAttr then
    (locId (e.idAttr.getD ""), "select_" ++ e.idAttr.getD "")
  else if jsTruthy e.nameAttr then
    (locAttr "select" "name" (e.nameAttr.getD ""), "select_" ++ e.nameAttr.getD "")
  else
    (locEq "select" (c - 1), "select_" ++ toString c)

/-- Contribution of one select. -/
def genSelect (c : Nat) (e : Elem) : ElemGen :=
  let p := selectLoc c e
  let n := p.2
  ⟨⟨n, n, p.1⟩, [mkGetterCap n], [mkGetValue n], [mkSelect n], [⟨"select", n⟩]⟩

/-- Locator and snake-case identifier of a textarea (part_001, TEXTAREAS block). -/
def textareaLoc (c : Nat) (e : Elem) : String × String :=
  if jsTruthy e.dataTestId then
    (locTestId (e.dataTestId.getD ""), "textarea_" ++ sanitizeIdent (e.dataTestId.getD ""))
  else if jsTruthy e.idAttr then
    (locId (e.idAttr.getD ""), "textarea_" ++ e.idAttr.getD "")
  else if jsTruthy e.nameAttr then
    (locAttr "textarea" "name" (e.nameAttr.getD ""), "textarea_" ++ e.nameAttr.getD "")
  else if jsTruthy e.placeholder then
    (locAttr "textarea" "placeholder" (e.placeholder.getD ""),
     "textarea_" ++ jsToLower (sanitizeIdent (e.placeholder.getD "")))
  else
    (locEq "textarea" (c - 1), "textarea_" ++ toString c)

/-- Contribution of one textarea. -/
def genTextarea (c : Nat) (e : Elem) : ElemGen :=
  let p := textareaLoc c e
  let n := p.2
  ⟨⟨n, n, p.1⟩, [mkGetterCap n], [mkGetValue n], [mkType n, mkClear n], [⟨"textarea", n⟩]⟩

/-- The five category passes of part_001 in order with the shared
elementCounter. -/
def elemGens (d : Doc) : List ElemGen :=
  let c0 := 1
  let c1 := c0 + d.buttons.length
  let c2 := c1 + d.inputs.length
  let c3 := c2 + d.links.length
  let c4 := c3 + d.selects.length
  runCat genButton c0 d.buttons ++ runCat genInput c1 d.inputs
    ++ runCat genLink c2 d.links ++ runCat genSelect c3 d.selects
    ++ runCat genTextarea c4 d.textareas

/-- hasLoginForm of part_001: some form exists, and some input anywhere in
the document has type password or a name containing "password". -/
def hasLoginForm (d : Doc) : Bool :=
  d.forms.length > 0 &&
    ((d.inputs.filter (fun i => i.typeAttr == some "password")).length > 0 ||
     (d.inputs.filter (fun i =>
        match i.nameAttr with
        | some nm => strContains nm "password"
        | none => false)).length > 0)

/-- hasSearchForm of part_001. -/
def hasSearchForm (d : Doc) : Bool :=
  (d.inputs.filter (fun i => i.typeAttr == some "search")).length > 0 ||
  (d.inputs.filter (fun i =>
      match i.placeholder with
      | some p => strContains p "search"
      | none => false)).length > 0

/-- hasSubmitButton of part_001 (computed by the source, not used further). -/
def hasSubmitButton (d : Doc) : Bool :=
  (d.buttons.filter (fun b => b.typeAttr == some "submit")).length > 0 ||
  (d.inputs.filter (fun i => i.typeAttr == some "submit")).length > 0

/-- hasRegistrationForm of part_001: some form whose text content contains a
registration keyword. -/
def hasRegistrationForm (d : Doc) : Bool :=
  (d.forms.filter (fun f =>
      let t := jsToLower f.text
      strContains t "register" || strContains t "signup" ||
      strContains t "create account" || strContains t "sign up")).length > 0

/-- The login workflow method template of part_001. -/
def loginWorkflowStr : String :=
  "\n    // Login workflow\n    login(username, password) \x7b\n        const usernameInput = this.getInputUsername ? this.getInputUsername() : this.getInputEmail()\n        const passwordInput = this.getInputPassword()\n        const submitButton = this.getButtonSubmit ? this.getButtonSubmit() : this.getButtonLogin()\n        \n        if (usernameInput) usernameInput.type(username)\n        if (passwordInput) passwordInput.type(password)\n        if (submitButton) submitButton.click()\n        \n        return this\n    \x7d"

/-- The search workflow method template of part_001. -/
def searchWorkflowStr : String :=
  "\n    // Search workflow\n    search(query) \x7b\n        const searchInput = this.getInputSearch ? this.getInputSearch() : this.getInputQuery()\n        const searchButton = this.getButtonSearch ? this.getButtonSearch() : this.getButtonSubmit()\n        \n        if (searchInput) searchInput.type(query)\n        if (searchButton) searchButton.click()\n        \n        return this\n    \x7d"

/-- The registration workflow method template of part_001. -/
def registerWorkflowStr : String :=
  "\n    // Registration workflow\n    register(user, email, password) \x7b\n        const userInput = this.getInputUsername ? this.getInputUsername() : (this.getInputUser ? this.getInputUser() : (this.getInputName ? this.getInputName() : this.getInputEmail ? this.getInputEmail() : null))\n        const emailInput = this.getInputEmail ? this.getInputEmail() : null\n        const passwordInput = this.getInputPassword ? this.getInputPassword() : (this.getInputPass ? this.getInputPass() : null)\n        const submitButton = this.getButtonRegister ? this.getButtonRegister() : (this.getButtonSignup ? this.getButtonSignup() : (this.getButtonSubmit ? this.getButtonSubmit() : null))\n        if (userInput) userInput.type(user)\n        if (emailInput && email) emailInput.type(email)\n        if (passwordInput) passwordInput.type(password)\n        if (submitButton) submitButton.click()\n        return this\n    \x7d"

/-- The always-appended utility methods, up to the interpolated hostname. -/
def commonWorkflowPre : String :=
  "\n    // Navigation workflow\n    navigateToHome() \x7b\n        const homeLink = this.getLinkHome ? this.getLinkHome() : this.getLinkLogo()\n        if (homeLink) homeLink.click()\n        return this\n    \x7d\n    \n    // Form submission workflow\n    submitForm() \x7b\n        const submitButton = this.getButtonSubmit ? this.getButtonSubmit() : this.getButtonLogin()\n        if (submitButton) submitButton.click()\n        return this\n    \x7d\n    \n    // Wait for page load\n    waitForPageLoad() \x7b\n        cy.wait(1000) // Adjust as needed\n        return this\n    \x7d\n    \n    // Verify page loaded\n    verifyPageLoaded() \x7b\n        cy.url().should(\x27include\x27, \x27"

/-- The tail of the utility-method template after the hostname. -/
def commonWorkflowSuf : String :=
  "\x27)\n        return this\n    \x7d"

/-- The rendered unconditional utility methods for a given source URL. -/
def commonWorkflowStr (u : Url) : String :=
  commonWorkflowPre ++ u.hostname ++ commonWorkflowSuf

/-- Workflow methods emitted for a document: one per true flag, then the
unconditional utility methods. -/
def workflowMethodsFor (d : Doc) (u : Url) : List String :=
  (if hasLoginForm d then [loginWorkflowStr] else [])
    ++ (if hasSearchForm d then [searchWorkflowStr] else [])
    ++ (if hasRegistrationForm d then [registerWorkflowStr] else [])
    ++ [commonWorkflowStr u]

/-- The result of generatePageObjectClass of part_001. -/
structure Gen where
  featureName : String
  className : String
  elements : List LocEntry
  getters : List MethodEntry
  valueGetters : List MethodEntry
  interactionMethods : List MethodEntry
  workflowMethods : List String
  elementMeta : List MetaEntry
  classCode : String
deriving Repr, DecidableEq

/-- generatePageObjectClass of src/unnamed/part_001. -/
def generatePageObjectClass (d : Doc) (u : Url) (customFeatureName : Option String) : Gen :=
  let featureName := jsOr customFeatureName (getFeatureName d u)
  let className := capFirst featureName ++ "Page"
  let gens := elemGens d
  let elements := gens.map (·.entry)
  let getters := (gens.map (·.getters)).flatten
  let valueGetters := (gens.map (·.valueGetters)).flatten
  let interactionMethods := (gens.map (·.interactions)).flatten
  let elementMeta := (gens.map (·.meta)).flatten
  let workflowMethods := workflowMethodsFor d u
  let metaPairs := elementMeta.foldl (fun acc m => upsert acc (m.elementName, m.ty)) []
  let classCode := "export class " ++ className
      ++ " \x7b\n  // Private elements\n  #elements = \x7b\n"
      ++ String.intercalate ",\n" (elements.map (fun e => mkElementLine e.elementName e.locator))
      ++ "\n  \x7d\n\n  // Element meta (currently not used for bulk actions)\n  #meta = "
      ++ jsonMeta metaPairs
      ++ "\n\n  // Public getters\n"
      ++ String.intercalate "\n" (getters.map (·.line))
      ++ "\n\n  // Value/State getters\n"
      ++ String.intercalate "\n" (valueGetters.map (·.line))
      ++ "\n\n  // Interaction methods (per-element actions)\n"
      ++ String.intercalate "\n" (interactionMethods.map (·.line))
      ++ "\n\n  // Workflow methods\n"
      ++ String.intercalate "\n" workflowMethods
      ++ "\n\x7d\n"
  ⟨featureName, className, elements, getters, valueGetters, interactionMethods,
   workflowMethods, elementMeta, classCode⟩

end Part001

namespace Part001

/-- The runtime failure mode of generateCypressTests: calling a string method
on the null submitBtn inside the negative-test loop. -/
inductive JsError where
  | nullSubmit
deriving Repr, DecidableEq

/-- Element-level test pair for buttons and links. -/
def clickReadTests (n : String) : List String :=
  ["\n    it(\x27should click " ++ n ++ "\x27, () => \x7b\n        page.click" ++ capFirst n
    ++ "()\n        // Add assertions based on expected behavior\n    \x7d)",
   "\n    it(\x27should get text of " ++ n ++ "\x27, () => \x7b\n        page.getText" ++ capFirst n
    ++ "().should(\x27be.a\x27, \x27string\x27)\n    \x7d)"]

/-- Element-level test pair for checkbox and radio inputs. -/
def checkUncheckTests (n : String) : List String :=
  ["\n    it(\x27should check " ++ n ++ "\x27, () => \x7b\n        page.check" ++ capFirst n
    ++ "()\n        page.isChecked" ++ capFirst n ++ "()\n    \x7d)",
   "\n    it(\x27should uncheck " ++ n ++ "\x27, () => \x7b\n        page.uncheck" ++ capFirst n
    ++ "()\n        // Should be unchecked\n    \x7d)"]

/-- Element-level test pair for the select, textarea and literal input types. -/
def typeClearTests (n : String) : List String :=
  ["\n    it(\x27should type in " ++ n ++ "\x27, () => \x7b\n        page.type" ++ capFirst n
    ++ "(\x27test input\x27)\n        page.getValue" ++ capFirst n
    ++ "().should(\x27eq\x27, \x27test input\x27)\n    \x7d)",
   "\n    it(\x27should clear " ++ n ++ "\x27, () => \x7b\n        page.type" ++ capFirst n
    ++ "(\x27test\x27)\n        page.clear" ++ capFirst n ++ "()\n        page.getValue" ++ capFirst n
    ++ "().should(\x27eq\x27, \x27\x27)\n    \x7d)"]

/-- The element-level test cases, dispatched on the recorded type string.
An input whose type attribute is e.g. "text" or "password" matches no branch
(the source compares against the literal string "input"), so it gets none. -/
def elementTestsFor (em : List MetaEntry) : List String :=
  (em.map (fun m =>
    if m.ty == "button" || m.ty == "link" then clickReadTests m.elementName
    else if m.ty == "checkbox" || m.ty == "radio" then checkUncheckTests m.elementName
    else if m.ty == "select" || m.ty == "textarea" || m.ty == "input" then
      typeClearTests m.elementName
    else [])).flatten

/-- The normalized base name a form field is re-derived under when matching
it back to an elementMeta record. -/
def fieldBase (fld : FormField) : String :=
  let b := match fld.tag with
    | .input =>
      let ty := jsOr fld.el.typeAttr "text"
      "input_" ++ jsOr fld.el.idAttr (jsOr fld.el.nameAttr (jsOr fld.el.dataTestId ty))
    | .select => "select_" ++ jsOr fld.el.idAttr (jsOr fld.el.nameAttr (jsOr fld.el.dataTestId "select"))
    | .textarea => "textarea_" ++ jsOr fld.el.idAttr (jsOr fld.el.nameAttr (jsOr fld.el.dataTestId "textarea"))
  jsToLower (sanitizeIdent b)

/-- The fields of a form matched back to elementMeta records by the
startsWith correlation. -/
def matchedFields (em : List MetaEntry) (f : Form) : List MetaEntry :=
  f.fields.filterMap (fun fld => em.find? (fun e => strStarts e.elementName (fieldBase fld)))

/-- The normalized base name of a candidate submit control. -/
def submitBase (s : SubmitEl) : String :=
  let b := if s.isButton then
      let t := jsToLower (sanitizeIdent (jsTrim s.el.text))
      "button_" ++ jsOr s.el.idAttr (if t != "" then t else "submit")
    else
      "input_" ++ jsOr s.el.idAttr (jsOr s.el.nameAttr (jsOr s.el.dataTestId "submit"))
  jsToLower (sanitizeIdent b)

/-- The submit control of a form: the last matching candidate among the
descendant buttons and inputs with type submit (the source overwrites on
every match). -/
def submitName (em : List MetaEntry) (f : Form) : Option String :=
  (f.controls.filter (fun s => s.el.typeAttr == some "submit")).foldl
    (fun acc s =>
      match em.find? (fun e => strStarts e.elementName (submitBase s)) with
      | some m => some m.elementName
      | none => acc) none

/-- A valid-data fill step for one matched field. -/
def validFill (f : MetaEntry) : String :=
  if f.ty == "checkbox" || f.ty == "radio" then "page.check" ++ capFirst f.elementName ++ "()"
  else "page.type" ++ capFirst f.elementName ++ "(\x27valid_" ++ f.elementName ++ "\x27)"

/-- The positive form-submission test. -/
def positiveTest (fs : List MetaEntry) (b : String) : String :=
  "\n    it(\x27should submit form with valid data\x27, () => \x7b\n        "
    ++ String.intercalate "\n        " (fs.map validFill)
    ++ "\n        page.click" ++ capFirst b
    ++ "()\n        // Add assertions for successful submission\n    \x7d)"

/-- The negative test for an unchecked boolean field. -/
def negCheckTest (f : MetaEntry) (b : String) : String :=
  "\n    it(\x27should show error if " ++ f.elementName
    ++ " is not checked\x27, () => \x7b\n        // Do not check\n        page.click" ++ capFirst b
    ++ "()\n        // Add assertions for error\n    \x7d)"

/-- The negative test leaving one non-boolean field empty. -/
def negEmptyTest (fs : List MetaEntry) (f : MetaEntry) (b : String) : String :=
  "\n    it(\x27should show error if " ++ f.elementName ++ " is empty\x27, () => \x7b\n        "
    ++ String.intercalate "\n        "
        ((fs.filter (fun ff => ff.elementName != f.elementName)).map validFill)
    ++ "\n        // Leave " ++ f.elementName ++ " empty\n        page.click" ++ capFirst b
    ++ "()\n        // Add assertions for error\n    \x7d)"

/-- The long-input edge-case test. -/
def edgeLongTest (f : MetaEntry) (b : String) : String :=
  "\n    it(\x27should handle long input for " ++ f.elementName
    ++ "\x27, () => \x7b\n        page.type" ++ capFirst f.elementName
    ++ "(\x27a\x27.repeat(1000))\n        page.click" ++ capFirst b
    ++ "()\n        // Add assertions for edge case\n    \x7d)"

/-- The special-characters edge-case test. -/
def edgeSpecialTest (f : MetaEntry) (b : String) : String :=
  "\n    it(\x27should handle special characters for " ++ f.elementName
    ++ "\x27, () => \x7b\n        page.type" ++ capFirst f.elementName
    ++ "(\x27!@#$%^&*()_+-=[]\x7b\x7d|;:,.<>?\x27)\n        page.click" ++ capFirst b
    ++ "()\n        // Add assertions for edge case\n    \x7d)"

/-- The form-level tests of one form.  The positive test is guarded on both
a nonempty field list and a resolved submit control, but the negative and
edge-case loops call a string method on submitBtn unconditionally, so a form
with matched fields and no resolved submit control raises. -/
def formTestsFor (em : List MetaEntry) (f : Form) : Except JsError (List String) :=
  let fs := matchedFields em f
  let sb := submitName em f
  match fs, sb with
  | [], _ => .ok []
  | _ :: _, none => .error .nullSubmit
  | fls, some b =>
    .ok ([positiveTest fls b]
      ++ fls.map (fun fl =>
          if fl.ty == "checkbox" || fl.ty == "radio" then negCheckTest fl b
          else negEmptyTest fls fl b)
      ++ ((fls.filter (fun fl => !(fl.ty == "checkbox" || fl.ty == "radio"))).map
          (fun fl => [edgeLongTest fl b, edgeSpecialTest fl b])).flatten)

/-- The form-level tests of the whole document; the first raising form
aborts the run as the thrown TypeError would. -/
def allFormTests (em : List MetaEntry) : List Form → Except JsError (List String)
  | [] => .ok []
  | f :: t =>
    match formTestsFor em f with
    | .error e => .error e
    | .ok ts =>
      match allFormTests em t with
      | .error e => .error e
      | .ok rest => .ok (ts ++ rest)

/-- The Login Workflow test group template. -/
def loginTestStr : String :=
  "\n    describe(\x27Login Workflow\x27, () => \x7b\n        it(\x27should login with valid credentials\x27, () => \x7b\n            page.login(\x27validuser\x27, \x27validpassword\x27)\n            // Add assertions for successful login\n        \x7d)\n        it(\x27should show error with invalid credentials\x27, () => \x7b\n            page.login(\x27invaliduser\x27, \x27wrongpassword\x27)\n            // Add assertions for error\n        \x7d)\n        it(\x27should show error with empty username\x27, () => \x7b\n            page.login(\x27\x27, \x27password\x27)\n            // Add assertions for error\n        \x7d)\n        it(\x27should show error with empty password\x27, () => \x7b\n            page.login(\x27username\x27, \x27\x27)\n            // Add assertions for error\n        \x7d)\n    \x7d)"

/-- The Search Workflow test group template. -/
def searchTestStr : String :=
  "\n    describe(\x27Search Workflow\x27, () => \x7b\n        it(\x27should search with valid query\x27, () => \x7b\n            page.search(\x27test query\x27)\n            // Add assertions for search results\n        \x7d)\n        it(\x27should handle empty search query\x27, () => \x7b\n            page.search(\x27\x27)\n            // Add assertions for empty search\n        \x7d)\n    \x7d)"

/-- The Register Workflow test group template. -/
def registerTestStr : String :=
  "\n    describe(\x27Register Workflow\x27, () => \x7b\n        it(\x27should register with valid data\x27, () => \x7b\n            page.register(\x27user\x27, \x27email@example.com\x27, \x27password\x27)\n            // Add assertions for successful registration\n        \x7d)\n        it(\x27should show error with invalid data\x27, () => \x7b\n            page.register(\x27\x27, \x27\x27, \x27\x27)\n            // Add assertions for error\n        \x7d)\n    \x7d)"

/-- The workflow test groups, selected by regex-testing the generated class
source for login, search and register method calls. -/
def workflowTestsFor (classCode : String) : List String :=
  (if hasCall "login".data classCode.data then [loginTestStr] else [])
    ++ (if hasCall "search".data classCode.data then [searchTestStr] else [])
    ++ (if hasCall "register".data classCode.data then [registerTestStr] else [])

/-- generateCypressTests of src/unnamed/part_001. -/
def generateCypressTests (g : Gen) (d : Doc) (u : Url) : Except JsError String :=
  let ets := elementTestsFor g.elementMeta
  match allFormTests g.elementMeta d.forms with
  | .error e => .error e
  | .ok fts =>
    let wts := workflowTestsFor g.classCode
    .ok ("import \x7b " ++ g.className ++ " \x7d from \x27../pages/" ++ g.featureName
      ++ "\x27\n\ndescribe(\x27" ++ g.className
      ++ " Tests\x27, () => \x7b\n    let page\n    beforeEach(() => \x7b\n        cy.visit(\x27"
      ++ u.raw ++ "\x27)\n        page = new " ++ g.className
      ++ "()\n    \x7d)\n    describe(\x27Element Interactions\x27, () => \x7b\n"
      ++ String.intercalate "\n" ets
      ++ "\n    \x7d)\n    describe(\x27Form Submission\x27, () => \x7b\n"
      ++ String.intercalate "\n" fts
      ++ "\n    \x7d)\n"
      ++ String.intercalate "\n" wts
      ++ "\n    // Add more negative/error/edge case tests as needed\n\x7d)")

end Part001

/-- A character that is alphanumeric or in the separator class of toCamelCase. -/
def alnumOrSep (c : Char) : Bool :=
  c.isAlphanum || isSepChar c

/-- Structural consistency of one element contribution: every generated
method line references the identifier of the locator entry, every meta entry
records that identifier, and at least one interaction method exists. -/
def EntryConsistent (g : ElemGen) : Prop :=
  (∀ m ∈ g.getters, m.elementName = g.entry.elementName) ∧
  (∀ m ∈ g.valueGetters, m.elementName = g.entry.elementName) ∧
  (∀ m ∈ g.interactions, m.elementName = g.entry.elementName) ∧
  (∀ mt ∈ g.meta, mt.elementName = g.entry.elementName) ∧
  g.interactions ≠ []

namespace Part001

/-- The element-level identifiers the generated test source references:
every elementMeta identifier (element tests), the matched form fields, and
the resolved submit controls. -/
def testRefs (g : Gen) (d : Doc) : List String :=
  g.elementMeta.map (·.elementName)
    ++ (d.forms.map (fun f => (matchedFields g.elementMeta f).map (·.elementName))).flatten
    ++ d.forms.filterMap (fun f => submitName g.elementMeta f)

end Part001

/-- First truthy candidate of a list of optional strings, returned as the
string itself (used by the spec-worded feature-name inference). -/
def firstTruthyStr : List (Option String) → Option String
  | [] => none
  | o :: t => if jsTruthy o then some (o.getD "") else firstTruthyStr t

/-- The feature-name inference as the specification words it: the first
non-empty candidate among form name-or-id, form legend, first h1, first h2
and document title is lower-snake-cased; otherwise a vocabulary keyword is
sought in the URL path segments and then in the hostname; otherwise the
first path segment; otherwise the literal "page". -/
def specFeatureName (d : Doc) (u : Url) : String :=
  let fname : Option String := match d.forms.head? with
    | some f => f.nameAttr
    | none => none
  let fid : Option String := match d.forms.head? with
    | some f => f.idAttr
    | none => none
  let cands : List (Option String) :=
    [jsOrOpt fname fid,
     some (jsTrim ((d.forms.filterMap Form.legend).head?.getD "")),
     some (jsTrim (d.h1.getD "")),
     some (jsTrim (d.h2.getD "")),
     some (jsTrim (d.title.getD ""))]
  match firstTruthyStr cands with
  | some s => sanitizeFeatureName s
  | none =>
    let pathParts := ((splitOnChar '/' u.pathname.data).map String.mk).filter (fun p => p != "")
    match findKeywordInParts pathParts with
    | some kw => kw
    | none =>
      match keywords.find? (fun kw => strContains (jsToLower u.hostname) kw) with
      | some kw => kw
      | none =>
        match pathParts.head? with
        | some p => sanitizeFeatureName p
        | none => "page"

/-- A URL used by the concrete scenarios. -/
def exUrl : Url :=
  { raw := "http://example.com/", hostname := "example.com", pathname := "/" }

/-- Two buttons with identical text and no other attributes (C1). -/
def exSaveDoc : Doc :=
  { buttons := [{ text := "Save" }, { text := "Save" }] }

/-- A button with an id followed by an attribute-less input (C6). -/
def exCounterDoc : Doc :=
  { buttons := [{ idAttr := some "b1" }], inputs := [{}] }

/-- The text input with data-testid "user" of the round-trip scenario. -/
def exUserInput : Elem := { dataTestId := some "user", typeAttr := some "text" }

/-- The bare password input of the round-trip scenario. -/
def exPwInput : Elem := { typeAttr := some "password" }

/-- The submit button labelled "Log in" of the round-trip scenario. -/
def exLoginBtn : Elem := { text := "Log in", typeAttr := some "submit" }

/-- The login form document of the round-trip scenario (C7). -/
def exLoginDoc : Doc :=
  { buttons := [exLoginBtn],
    inputs := [exUserInput, exPwInput],
    forms := [{ text := "Log in",
                fields := [⟨.input, exUserInput⟩, ⟨.input, exPwInput⟩],
                controls := [⟨false, exUserInput⟩, ⟨false, exPwInput⟩, ⟨true, exLoginBtn⟩] }] }

/-- A form field input with a name but no submit control in its form (C3). -/
def exEmailInput : Elem := { nameAttr := some "email" }

/-- A document whose only form has a matched field and no submit control (C3). -/
def exEmailDoc : Doc :=
  { inputs := [exEmailInput],
    forms := [{ fields := [⟨.input, exEmailInput⟩] }] }

/-- A document with an empty form and a password input outside it (C5). -/
def exPwOutsideDoc : Doc :=
  { inputs := [{ typeAttr := some "password" }], forms := [{}] }

/-- A document with no interactive elements at all (C9 witness). -/
def exEmptyDoc : Doc := {}

/-- An element carrying both a data-testid and an id (C2 witness). -/
def exTestIdElem : Elem := { dataTestId := some "user", idAttr := some "uid" }

/-- Two buttons with no attributes at all (C6 scenario). -/
def exTwoButtonDoc : Doc := { buttons := [{}, {}] }

/-- Whether an Except value is a success. -/
def exceptIsOk {e a : Type} : Except e a → Bool
  | .ok _ => true
  | .error _ => false

theorem isAlphanum_toUpper {c : Char} (h : c.isAlphanum = true) :
    c.toUpper.isAlphanum = true := by
  unfold Char.toUpper
  by_cases hc : Char.toNat c ≥ 97 ∧ Char.toNat c ≤ 122
  · rw [if_pos hc]
    obtain ⟨h1, h2⟩ := hc
    set m := Char.toNat c - 32 with hm
    have hb1 : 65 ≤ m := by omega
    have hb2 : m ≤ 90 := by omega
    interval_cases m <;> decide
  · rw [if_neg hc]
    exact h

theorem isAlphanum_toLower {c : Char} (h : c.isAlphanum = true) :
    c.toLower.isAlphanum = true := by
  unfold Char.toLower
  by_cases hc : Char.toNat c ≥ 65 ∧ Char.toNat c ≤ 90
  · rw [if_pos hc]
    obtain ⟨h1, h2⟩ := hc
    set m := Char.toNat c + 32 with hm
    have hb1 : 97 ≤ m := by omega
    have hb2 : m ≤ 122 := by omega
    interval_cases m <;> decide
  · rw [if_neg hc]
    exact h

theorem camelAux_alnum (l : List Char) :
    ∀ (pend : Bool), (∀ c ∈ l, alnumOrSep c = true) →
      ∀ c ∈ camelAux pend l, c.isAlphanum = true := by
  induction l with
  | nil =>
    intro pend _ c hc
    simp [camelAux] at hc
  | cons x t ih =>
    intro pend hall c hc
    simp only [camelAux] at hc
    cases hsep : isSepChar x with
    | true =>
      rw [hsep] at hc
      simp only [if_true] at hc
      exact ih true (fun c' h' => hall c' (List.mem_cons_of_mem _ h')) c hc
    | false =>
      rw [hsep] at hc
      simp only [Bool.false_eq_true, if_false] at hc
      have hx : x.isAlphanum = true := by
        have hx0 := hall x (List.mem_cons_self _ _)
        simp only [alnumOrSep, hsep, Bool.or_false] at hx0
        exact hx0
      rcases List.mem_cons.mp hc with h | h
      · subst h
        cases pend with
        | true => simpa using isAlphanum_toUpper hx
        | false => simpa using hx
      · exact ih false (fun c' h' => hall c' (List.mem_cons_of_mem _ h')) c h

theorem lowerFirstList_alnum (l : List Char) (h : ∀ c ∈ l, c.isAlphanum = true) :
    ∀ c ∈ lowerFirstList l, c.isAlphanum = true := by
  cases l with
  | nil => simp [lowerFirstList]
  | cons x t =>
    intro c hc
    simp only [lowerFirstList] at hc
    rcases List.mem_cons.mp hc with h' | h'
    · subst h'
      exact isAlphanum_toLower (h x (List.mem_cons_self _ _))
    · exact h c (List.mem_cons_of_mem _ h')

/-- C8 counterexample: toCamelCase only treats hyphen, underscore and
whitespace as word boundaries.  On the raw label "a.b" the dot is neither
removed nor does it create a boundary, and the output is not purely
alphanumeric, contradicting the claim as stated. -/
theorem c8_counterexample :
    toCamelCase "a.b" = "a.b" ∧ ("a.b".data.all Char.isAlphanum) = false := by
  constructor
  · rfl
  · rfl

/-- C8 (amended): toCamelCase collapses runs of hyphens, underscores and
whitespace into single word boundaries (uppercasing the following character)
and lowercases the first character; characters outside that separator class
are preserved, so the output is purely alphanumeric whenever the raw label
contains only alphanumeric and separator characters. -/
theorem c8_separator_camelcase (s : String) (h : s.data.all alnumOrSep = true) :
    (toCamelCase s).data.all Char.isAlphanum = true := by
  rw [List.all_eq_true] at h ⊢
  intro c hc
  have hc' : c ∈ lowerFirstList (camelAux false s.data) := hc
  exact lowerFirstList_alnum _ (camelAux_alnum s.data false h) c hc'

/-- Witness for c8_separator_camelcase at a concrete raw label. -/
theorem c8_separator_camelcase_witness :
    ("hello world-foo".data.all alnumOrSep = true) ∧
      ((toCamelCase "hello world-foo").data.all Char.isAlphanum = true) :=
  ⟨by decide, c8_separator_camelcase "hello world-foo" (by decide)⟩

theorem runCat_mem {f : Nat → Elem → ElemGen} :
    ∀ {c : Nat} {es : List Elem} {g : ElemGen},
      g ∈ runCat f c es → ∃ c' e, g = f c' e := by
  intro c es
  induction es generalizing c with
  | nil => intro g hg; simp [runCat] at hg
  | cons e t ih =>
    intro g hg
    simp only [runCat] at hg
    rcases List.mem_cons.mp hg with h | h
    · exact ⟨c, e, h⟩
    · exact ih h

theorem indexJs_genButton_consistent (c : Nat) (e : Elem) :
    EntryConsistent (IndexJs.genButton c e) := by
  unfold IndexJs.genButton
  refine ⟨?_, ?_, ?_, ?_, ?_⟩ <;> simp [mkGetText, mkClick]

theorem indexJs_genInput_consistent (c : Nat) (e : Elem) :
    EntryConsistent (IndexJs.genInput c e) := by
  unfold IndexJs.genInput
  dsimp only
  split <;>
    (refine ⟨?_, ?_, ?_, ?_, ?_⟩ <;>
      simp [mkGetterLower, mkIsChecked, mkCheck, mkUncheck, mkGetValue, mkType, mkClear])

theorem indexJs_genLink_consistent (c : Nat) (e : Elem) :
    EntryConsistent (IndexJs.genLink c e) := by
  unfold IndexJs.genLink
  refine ⟨?_, ?_, ?_, ?_, ?_⟩ <;> simp [mkGetterLower, mkGetText, mkClick]

theorem indexJs_genSelect_consistent (c : Nat) (e : Elem) :
    EntryConsistent (IndexJs.genSelect c e) := by
  unfold IndexJs.genSelect
  refine ⟨?_, ?_, ?_, ?_, ?_⟩ <;> simp [mkGetterLower, mkGetValue, mkSelect]

theorem indexJs_genTextarea_consistent (c : Nat) (e : Elem) :
    EntryConsistent (IndexJs.genTextarea c e) := by
  unfold IndexJs.genTextarea
  refine ⟨?_, ?_, ?_, ?_, ?_⟩ <;> simp [mkGetterLower, mkGetValue, mkType, mkClear]

theorem indexJs_elemGens_consistent {d : Doc} {g : ElemGen}
    (hg : g ∈ IndexJs.elemGens d) : EntryConsistent g := by
  unfold IndexJs.elemGens at hg
  simp only [List.mem_append] at hg
  rcases hg with ((((h | h) | h) | h) | h) <;>
    obtain ⟨c', e, rfl⟩ := runCat_mem h
  · exact indexJs_genButton_consistent c' e
  · exact indexJs_genInput_consistent c' e
  · exact indexJs_genLink_consistent c' e
  · exact indexJs_genSelect_consistent c' e
  · exact indexJs_genTextarea_consistent c' e

theorem part001_genButton_consistent (c : Nat) (e : Elem) :
    EntryConsistent (Part001.genButton c e) := by
  unfold Part001.genButton
  refine ⟨?_, ?_, ?_, ?_, ?_⟩ <;> simp [mkGetterCap, mkGetText, mkClick]

theorem part001_genInput_consistent (c : Nat) (e : Elem) :
    EntryConsistent (Part001.genInput c e) := by
  unfold Part001.genInput
  dsimp only
  split <;>
    (refine ⟨?_, ?_, ?_, ?_, ?_⟩ <;>
      simp [mkGetterCap, mkIsChecked, mkCheck, mkUncheck, mkGetValue, mkType, mkClear])

theorem part001_genLink_consistent (c : Nat) (e : Elem) :
    EntryConsistent (Part001.genLink c e) := by
  unfold Part001.genLink
  refine ⟨?_, ?_, ?_, ?_, ?_⟩ <;> simp [mkGetterCap, mkGetText, mkClick]

theorem part001_genSelect_consistent (c : Nat) (e : Elem) :
    EntryConsistent (Part001.genSelect c e) := by
  unfold Part001.genSelect
  refine ⟨?_, ?_, ?_, ?_, ?_⟩ <;> simp [mkGetterCap, mkGetValue, mkSelect]

theorem part001_genTextarea_consistent (c : Nat) (e : Elem) :
    EntryConsistent (Part001.genTextarea c e) := by
  unfold Part001.genTextarea
  refine ⟨?_, ?_, ?_, ?_, ?_⟩ <;> simp [mkGetterCap, mkGetValue, mkType, mkClear]

theorem part001_elemGens_consistent {d : Doc} {g : ElemGen}
    (hg : g ∈ Part001.elemGens d) : EntryConsistent g := by
  unfold Part001.elemGens at hg
  simp only [List.mem_append] at hg
  rcases hg with ((((h | h) | h) | h) | h) <;>
    obtain ⟨c', e, rfl⟩ := runCat_mem h
  · exact part001_genButton_consistent c' e
  · exact part001_genInput_consistent c' e
  · exact part001_genLink_consistent c' e
  · exact part001_genSelect_consistent c' e
  · exact part001_genTextarea_consistent c' e

theorem indexJs_name_eq_camel {d : Doc} {g : ElemGen}
    (hg : g ∈ IndexJs.elemGens d) :
    g.entry.elementName = toCamelCase g.entry.rawName := by
  unfold IndexJs.elemGens at hg
  simp only [List.mem_append] at hg
  rcases hg with ((((h | h) | h) | h) | h) <;> obtain ⟨c', e, rfl⟩ := runCat_mem h
  · rfl
  · unfold IndexJs.genInput
    dsimp only
    split <;> rfl
  · rfl
  · rfl
  · rfl

/-- C1 counterexample: two buttons both labelled "Save" (no other
attributes) receive the identical identifier buttonSave; no numeric
disambiguator is appended and the identifiers are not pairwise distinct. -/
theorem c1_counterexample :
    ((IndexJs.generatePageObjectClass exSaveDoc exUrl none).elements.map
        LocEntry.elementName) = ["buttonSave", "buttonSave"] ∧
      ¬ ((IndexJs.generatePageObjectClass exSaveDoc exUrl none).elements.map
        LocEntry.elementName).Nodup := by
  constructor
  · rfl
  · decide

/-- C1 (amended): each identifier is obtained by applying toCamelCase to the
element's raw label independently of every other element; generation keeps
no usedIdentifiers set and appends no numeric disambiguator, so elements
whose raw labels collide after camel-casing receive equal identifiers. -/
theorem c1_no_disambiguation (d : Doc) (u : Url) :
    ((IndexJs.generatePageObjectClass d u none).elements.map LocEntry.elementName)
      = ((IndexJs.generatePageObjectClass d u none).elements.map
          (fun e => toCamelCase e.rawName)) := by
  have he : (IndexJs.generatePageObjectClass d u none).elements
      = (IndexJs.elemGens d).map (·.entry) := rfl
  rw [he, List.map_map, List.map_map]
  apply List.map_congr_left
  intro g hg
  exact indexJs_name_eq_camel hg

theorem mem_flatten_proj {β : Type} {gens : List ElemGen} {proj : ElemGen → List β} {m : β}
    (h : m ∈ (gens.map proj).flatten) : ∃ g ∈ gens, m ∈ proj g := by
  rcases List.mem_flatten.mp h with ⟨l, hl, hm⟩
  rcases List.mem_map.mp hl with ⟨g, hg, rfl⟩
  exact ⟨g, hg, hm⟩

theorem matchedFields_mem {em : List MetaEntry} {f : Form} {mt : MetaEntry}
    (h : mt ∈ Part001.matchedFields em f) : mt ∈ em := by
  unfold Part001.matchedFields at h
  rcases List.mem_filterMap.mp h with ⟨fld, _, hfind⟩
  exact List.mem_of_find?_eq_some hfind

theorem submitName_mem {em : List MetaEntry} {f : Form} {n : String}
    (h : Part001.submitName em f = some n) : ∃ mt ∈ em, mt.elementName = n := by
  unfold Part001.submitName at h
  suffices H : ∀ (l : List SubmitEl) (acc : Option String),
      (∀ m, acc = some m → ∃ mt ∈ em, mt.elementName = m) →
      l.foldl (fun acc s =>
        match em.find? (fun e => strStarts e.elementName (Part001.submitBase s)) with
        | some m => some m.elementName
        | none => acc) acc = some n →
      ∃ mt ∈ em, mt.elementName = n by
    exact H _ none (by simp) h
  intro l
  induction l with
  | nil =>
    intro acc hacc hfold
    exact hacc n hfold
  | cons s t ih =>
    intro acc hacc hfold
    simp only [List.foldl_cons] at hfold
    refine ih _ ?_ hfold
    intro m hm
    cases hfind : em.find? (fun e => strStarts e.elementName (Part001.submitBase s)) with
    | some mt =>
      rw [hfind] at hm
      injection hm with hm
      exact ⟨mt, List.mem_of_find?_eq_some hfind, hm⟩
    | none =>
      rw [hfind] at hm
      exact hacc m hm

theorem p3_meta_mem_keys {d : Doc} {u : Url} {mt : MetaEntry}
    (h : mt ∈ (Part001.generatePageObjectClass d u none).elementMeta) :
    mt.elementName ∈ (Part001.generatePageObjectClass d u none).elements.map
      LocEntry.elementName := by
  have hm : (Part001.generatePageObjectClass d u none).elementMeta
      = ((Part001.elemGens d).map (·.meta)).flatten := rfl
  have he : (Part001.generatePageObjectClass d u none).elements
      = (Part001.elemGens d).map (·.entry) := rfl
  rw [hm] at h
  rw [he]
  obtain ⟨g, hg, hmt⟩ := mem_flatten_proj h
  have hname := (part001_elemGens_consistent hg).2.2.2.1 mt hmt
  exact List.mem_map.mpr ⟨g.entry, List.mem_map.mpr ⟨g, hg, rfl⟩, hname.symm⟩

/-- C4: in the src/index.js generator, the identifiers referenced by the
interaction and value/state accessor methods are exactly the locator-map
keys (no orphaned methods or locators); and every element-level identifier
the part_001 test source references (element tests, matched form fields,
resolved submit controls) is a locator-map key of its class source. -/
theorem c4_identifier_consistency :
    (∀ (d : Doc) (u : Url) (n : String),
        (n ∈ ((IndexJs.generatePageObjectClass d u none).getters
              ++ (IndexJs.generatePageObjectClass d u none).valueGetters
              ++ (IndexJs.generatePageObjectClass d u none).interactionMethods).map
                MethodEntry.elementName)
          ↔ n ∈ (IndexJs.generatePageObjectClass d u none).elements.map
                LocEntry.elementName)
    ∧ (∀ (d : Doc) (u : Url) (n : String),
        n ∈ Part001.testRefs (Part001.generatePageObjectClass d u none) d →
          n ∈ (Part001.generatePageObjectClass d u none).elements.map
                LocEntry.elementName) := by
  constructor
  · intro d u n
    have hgj : (IndexJs.generatePageObjectClass d u none).getters
        = ((IndexJs.elemGens d).map (·.getters)).flatten := rfl
    have hvj : (IndexJs.generatePageObjectClass d u none).valueGetters
        = ((IndexJs.elemGens d).map (·.valueGetters)).flatten := rfl
    have hij : (IndexJs.generatePageObjectClass d u none).interactionMethods
        = ((IndexJs.elemGens d).map (·.interactions)).flatten := rfl
    have hej : (IndexJs.generatePageObjectClass d u none).elements
        = (IndexJs.elemGens d).map (·.entry) := rfl
    rw [hgj, hvj, hij, hej]
    constructor
    · intro h
      rcases List.mem_map.mp h with ⟨m, hm, rfl⟩
      have hmem : ∃ g ∈ IndexJs.elemGens d, m.elementName = g.entry.elementName := by
        rcases List.mem_append.mp hm with h12 | h3
        · rcases List.mem_append.mp h12 with h1 | h2
          · obtain ⟨g, hg, hp⟩ := mem_flatten_proj h1
            exact ⟨g, hg, (indexJs_elemGens_consistent hg).1 m hp⟩
          · obtain ⟨g, hg, hp⟩ := mem_flatten_proj h2
            exact ⟨g, hg, (indexJs_elemGens_consistent hg).2.1 m hp⟩
        · obtain ⟨g, hg, hp⟩ := mem_flatten_proj h3
          exact ⟨g, hg, (indexJs_elemGens_consistent hg).2.2.1 m hp⟩
      obtain ⟨g, hg, hname⟩ := hmem
      rw [hname]
      exact List.mem_map.mpr ⟨g.entry, List.mem_map.mpr ⟨g, hg, rfl⟩, rfl⟩
    · intro h
      rcases List.mem_map.mp h with ⟨le, hle, rfl⟩
      rcases List.mem_map.mp hle with ⟨g, hg, rfl⟩
      have hc := indexJs_elemGens_consistent hg
      obtain ⟨m, hm⟩ : ∃ m, m ∈ g.interactions := by
        cases hmi : g.interactions with
        | nil => exact absurd hmi hc.2.2.2.2
        | cons a t => exact ⟨a, by simp [hmi]⟩
      refine List.mem_map.mpr ⟨m, ?_, hc.2.2.1 m hm⟩
      refine List.mem_append.mpr (Or.inr ?_)
      exact List.mem_flatten.mpr ⟨g.interactions, List.mem_map.mpr ⟨g, hg, rfl⟩, hm⟩
  · intro d u n hn
    unfold Part001.testRefs at hn
    rcases List.mem_append.mp hn with h12 | h3
    · rcases List.mem_append.mp h12 with h1 | h2
      · rcases List.mem_map.mp h1 with ⟨mt, hmt, rfl⟩
        exact p3_meta_mem_keys hmt
      · rcases List.mem_flatten.mp h2 with ⟨l, hl, hn2⟩
        rcases List.mem_map.mp hl with ⟨f, _, rfl⟩
        rcases List.mem_map.mp hn2 with ⟨mt, hmt, rfl⟩
        exact p3_meta_mem_keys (matchedFields_mem hmt)
    · rcases List.mem_filterMap.mp h3 with ⟨f, _, hsub⟩
      obtain ⟨mt, hmt, rfl⟩ := submitName_mem hsub
      exact p3_meta_mem_keys hmt

/-- Witness for c4_identifier_consistency: in the round-trip login document
the test source references input_user, and it is a locator-map key. -/
theorem c4_identifier_consistency_witness :
    ("input_user" ∈ Part001.testRefs
        (Part001.generatePageObjectClass exLoginDoc exUrl none) exLoginDoc) ∧
      ("input_user" ∈ (Part001.generatePageObjectClass exLoginDoc exUrl none).elements.map
        LocEntry.elementName) :=
  ⟨by decide, c4_identifier_consistency.2 exLoginDoc exUrl "input_user" (by decide)⟩

/-- C6: code bug in the positional fallback of src/index.js.  The claim (and
the spec) says the positional index is the 0-based order of encounter within
the element's category.  The two-button scenario does work (buttons are
processed first, so the shared counter coincides with the button index), but
the counter is shared across all categories: an attribute-less input
preceded by one button is the document's only input yet is emitted as
cy.get('input[type="text"]').eq(1), an index that skips the element. -/
theorem c6_positional_index_bug :
    (((IndexJs.generatePageObjectClass exTwoButtonDoc exUrl none).elements.map
        LocEntry.locator)
      = ["cy.get(\x27button\x27).eq(0)", "cy.get(\x27button\x27).eq(1)"]
    ∧ ((IndexJs.generatePageObjectClass exTwoButtonDoc exUrl none).elements.map
        LocEntry.elementName)
      = ["button1", "button2"])
    ∧ (((IndexJs.generatePageObjectClass exCounterDoc exUrl none).elements.map
        LocEntry.locator)
      = ["cy.get(\x27#b1\x27)", "cy.get(\x27input[type=\"text\"]\x27).eq(1)"]) := by
  exact ⟨⟨rfl, rfl⟩, rfl⟩

/-- C3: code bug in generateCypressTests of part_001.  For a form whose
matched fields exist but whose submit control cannot be resolved, the
negative-test loop calls a string method on the null submitBtn and the whole
generation run raises instead of completing (the claim says this very case
succeeds). -/
theorem c3_submitless_form_crash :
    Part001.generateCypressTests
        (Part001.generatePageObjectClass exEmailDoc exUrl none) exEmailDoc exUrl
      = .error .nullSubmit := by
  rfl

/-- C5 counterexample: a document with one empty form and a password-typed
input outside every form has hasLogin true, although no form has a
password-typed or password-named field -- refuting the claim's second half. -/
theorem c5_counterexample :
    Part001.hasLoginForm exPwOutsideDoc = true ∧
      (exPwOutsideDoc.forms.all (fun f => f.fields.all (fun fld =>
          !(fld.el.typeAttr == some "password"
            || strContains (fld.el.nameAttr.getD "") "password")))) = true := by
  exact ⟨rfl, rfl⟩

/-- C5 (amended): hasLogin is true exactly when the document contains at
least one form and, anywhere in the document (inside a form or not), at
least one input of type password or whose name contains "password". -/
theorem c5_password_flag_characterization (d : Doc) :
    Part001.hasLoginForm d = true ↔
      (d.forms ≠ [] ∧ ∃ i ∈ d.inputs,
        (i.typeAttr == some "password"
          || (match i.nameAttr with
              | some nm => strContains nm "password"
              | none => false)) = true) := by
  unfold Part001.hasLoginForm
  constructor
  · intro h
    obtain ⟨h1, h2⟩ := (Bool.and_eq_true _ _).mp h
    refine ⟨List.length_pos.mp (of_decide_eq_true h1), ?_⟩
    rcases (Bool.or_eq_true _ _).mp h2 with hA | hB
    · obtain ⟨i, hi⟩ := List.exists_mem_of_length_pos (of_decide_eq_true hA)
      obtain ⟨hmem, hp⟩ := List.mem_filter.mp hi
      exact ⟨i, hmem, (Bool.or_eq_true _ _).mpr (Or.inl hp)⟩
    · obtain ⟨i, hi⟩ := List.exists_mem_of_length_pos (of_decide_eq_true hB)
      obtain ⟨hmem, hp⟩ := List.mem_filter.mp hi
      exact ⟨i, hmem, (Bool.or_eq_true _ _).mpr (Or.inr hp)⟩
  · rintro ⟨h1, i, hi, hp⟩
    refine (Bool.and_eq_true _ _).mpr ⟨decide_eq_true (List.length_pos.mpr h1), ?_⟩
    rcases (Bool.or_eq_true _ _).mp hp with hA | hB
    · refine (Bool.or_eq_true _ _).mpr (Or.inl (decide_eq_true ?_))
      have : i ∈ d.inputs.filter (fun i => i.typeAttr == some "password") :=
        List.mem_filter.mpr ⟨hi, hA⟩
      calc 0 < 1 := Nat.zero_lt_one
        _ ≤ _ := (List.length_pos.mpr (List.ne_nil_of_mem this))
    · refine (Bool.or_eq_true _ _).mpr (Or.inr (decide_eq_true ?_))
      have : i ∈ d.inputs.filter (fun i =>
          match i.nameAttr with
          | some nm => strContains nm "password"
          | none => false) :=
        List.mem_filter.mpr ⟨hi, hB⟩
      calc 0 < 1 := Nat.zero_lt_one
        _ ≤ _ := (List.length_pos.mpr (List.ne_nil_of_mem this))

/-- Witness for c5_password_flag_characterization at a concrete document. -/
theorem c5_password_flag_characterization_witness :
    Part001.hasLoginForm exPwOutsideDoc = true :=
  (c5_password_flag_characterization exPwOutsideDoc).mpr (by decide)

/-- C2: the generic resolver getLocatorAndRawName follows exactly the fixed
priority the spec states (data-cy, data-test, data-testid, id, then the
category-specific fallbacks, then the positional fallback), and in
particular an element carrying both a data-testid and an id (and no
higher-priority data attribute) resolves to the data-testid locator. -/
theorem c2_locator_priority :
    (∀ (el : Elem) (tag : String) (extraType : Option String) (i : Nat),
        Part000B.getLocatorAndRawName el tag extraType (some i)
          = Part000B.specResolve el tag extraType i)
    ∧ (∀ (el : Elem) (tag : String) (extraType : Option String) (i : Nat),
        el.dataCy = none → el.dataTest = none → jsTruthy el.dataTestId = true →
          (Part000B.getLocatorAndRawName el tag extraType (some i)).locator
            = locTestId (el.dataTestId.getD "")) := by
  constructor
  · intro el tag extraType i
    unfold Part000B.getLocatorAndRawName Part000B.specResolve Part000B.specStrategies
      Part000B.specPositional
    simp only [Part000B.firstSome, Option.isSome_some, Bool.and_true, Option.getD_some]
    by_cases h1 : jsTruthy el.dataCy = true
    · simp [h1]
    by_cases h2 : jsTruthy el.dataTest = true
    · simp [h1, h2]
    by_cases h3 : jsTruthy el.dataTestId = true
    · simp [h1, h2, h3]
    by_cases h4 : jsTruthy el.idAttr = true
    · simp [h1, h2, h3, h4]
    by_cases h5 : (jsTruthy el.nameAttr && (tag == "input" || tag == "select" || tag == "textarea")) = true
    · simp [h1, h2, h3, h4, h5]
    by_cases h6 : (jsTruthy el.placeholder && (tag == "input" || tag == "textarea")) = true
    · simp [h1, h2, h3, h4, h5, h6]
    by_cases h7 : (jsTrim el.text != "" && tag == "button") = true
    · simp [h1, h2, h3, h4, h5, h6, h7]
    by_cases h8 : (jsTrim el.text != "" && tag == "a") = true
    · simp [h1, h2, h3, h4, h5, h6, h7, h8]
    by_cases h9 : (jsTruthy el.href && tag == "a") = true
    · simp [h1, h2, h3, h4, h5, h6, h7, h8, h9]
    by_cases h10 : (jsTruthy el.classAttr && tag == "button") = true
    · simp [h1, h2, h3, h4, h5, h6, h7, h8, h9, h10]
    by_cases h11 : (jsTruthy (jsOrOpt extraType el.typeAttr) && tag == "input") = true
    · simp [h1, h2, h3, h4, h5, h6, h7, h8, h9, h10, h11]
    · simp [h1, h2, h3, h4, h5, h6, h7, h8, h9, h10, h11]
  · intro el tag extraType i h1 h2 h3
    cases hdt : el.dataTestId with
    | none =>
      rw [hdt] at h3
      exact absurd h3 (by simp [jsTruthy])
    | some s =>
      have hs : (s != "") = true := by
        rw [hdt] at h3
        simpa [jsTruthy] using h3
      simp [Part000B.getLocatorAndRawName, h1, h2, hdt, jsTruthy, hs]

/-- Witness for c2_locator_priority: an input carrying data-testid "user"
and id "uid" resolves to the data-testid locator. -/
theorem c2_locator_priority_witness :
    exTestIdElem.dataCy = none ∧ exTestIdElem.dataTest = none ∧
      jsTruthy exTestIdElem.dataTestId = true ∧
      (Part000B.getLocatorAndRawName exTestIdElem "input" (some "text") (some 0)).locator
        = locTestId (exTestIdElem.dataTestId.getD "") :=
  ⟨rfl, rfl, rfl,
    c2_locator_priority.2 exTestIdElem "input" (some "text") 0 rfl rfl rfl⟩

/-- C10: getFeatureName follows exactly the stated priority: first non-empty
candidate among form name-or-id, form legend, first h1, first h2 and
document title (lower-snake-cased), then a vocabulary keyword found in the
URL path segments, then in the hostname, then the first path segment
(lower-snake-cased), then the literal "page". -/
theorem c10_feature_name_priority (d : Doc) (u : Url) :
    getFeatureName d u = specFeatureName d u := by
  unfold getFeatureName specFeatureName
  simp only [firstTruthyStr, jsTruthy, Option.getD_some]
  repeat' (first | rfl | (split <;> try simp_all))

/-- C7: round-trip scenario.  For the form with an input with data-testid
"user", a bare password input and a submit button labelled "Log in", the
generation result records the identifiers button_log_in, input_user (from
the data-testid) and input_password_3; hasLogin holds; the class source
carries the login(username, password) workflow method; and the test source
is generated successfully with a "Login Workflow" group containing a
success case and failure cases. -/
theorem c7_login_round_trip :
    ((Part001.generatePageObjectClass exLoginDoc exUrl none).elementMeta.map
        MetaEntry.elementName)
      = ["button_log_in", "input_user", "input_password_3"]
    ∧ Part001.hasLoginForm exLoginDoc = true
    ∧ (Part001.generatePageObjectClass exLoginDoc exUrl none).workflowMethods
      = [Part001.loginWorkflowStr, Part001.commonWorkflowStr exUrl]
    ∧ strContains Part001.loginWorkflowStr "login(username, password)" = true
    ∧ Part001.workflowTestsFor
        (Part001.generatePageObjectClass exLoginDoc exUrl none).classCode
      = [Part001.loginTestStr]
    ∧ strContains Part001.loginTestStr "Login Workflow" = true
    ∧ strContains Part001.loginTestStr "should login with valid credentials" = true
    ∧ strContains Part001.loginTestStr "should show error with invalid credentials" = true
    ∧ exceptIsOk (Part001.generateCypressTests
        (Part001.generatePageObjectClass exLoginDoc exUrl none) exLoginDoc exUrl) = true := by
  refine ⟨rfl, rfl, rfl, rfl, ?_, rfl, rfl, rfl, ?_⟩
  · rfl
  · rfl

theorem charPre_refl (l : List Char) : l.isPrefixOf l = true := by
  induction l with
  | nil => rfl
  | cons c t ih => simp [List.isPrefixOf_cons₂_self, ih]

theorem charPre_append {p a : List Char} (b : List Char) (h : p.isPrefixOf a = true) :
    p.isPrefixOf (a ++ b) = true := by
  induction p generalizing a with
  | nil => simp
  | cons x xs ih =>
    cases a with
    | nil => simp at h
    | cons y ys =>
      rw [List.cons_append, List.isPrefixOf_cons₂]
      rw [List.isPrefixOf_cons₂] at h
      obtain ⟨he, hp⟩ := (Bool.and_eq_true _ _).mp h
      exact (Bool.and_eq_true _ _).mpr ⟨he, ih hp⟩

theorem containsSub_nil_pat (l : List Char) : containsSub [] l = true := by
  cases l with
  | nil => rfl
  | cons c t => simp [containsSub]

theorem containsSub_append_left {pat a : List Char} (b : List Char)
    (h : containsSub pat a = true) : containsSub pat (a ++ b) = true := by
  induction a with
  | nil =>
    have hp : pat = [] := by
      simpa [containsSub, List.isEmpty_iff] using h
    subst hp
    exact containsSub_nil_pat _
  | cons c t ih =>
    simp only [containsSub] at h
    rcases (Bool.or_eq_true _ _).mp h with h1 | h2
    · rw [List.cons_append]
      simp only [containsSub]
      refine (Bool.or_eq_true _ _).mpr (Or.inl ?_)
      have := charPre_append (p := pat) (a := c :: t) b h1
      simpa using this
    · rw [List.cons_append]
      simp only [containsSub]
      exact (Bool.or_eq_true _ _).mpr (Or.inr (ih h2))

theorem containsSub_append_right {pat b : List Char} (a : List Char)
    (h : containsSub pat b = true) : containsSub pat (a ++ b) = true := by
  induction a with
  | nil => simpa using h
  | cons c t ih =>
    rw [List.cons_append]
    simp only [containsSub]
    exact (Bool.or_eq_true _ _).mpr (Or.inr ih)

theorem containsSub_self (l : List Char) : containsSub l l = true := by
  cases l with
  | nil => rfl
  | cons c t => simp [containsSub, charPre_refl]

theorem strContains_append_left {a : String} (b pat : String)
    (h : strContains a pat = true) : strContains (a ++ b) pat = true := by
  unfold strContains at h ⊢
  rw [String.data_append]
  exact containsSub_append_left _ h

theorem strContains_append_right {b : String} (a pat : String)
    (h : strContains b pat = true) : strContains (a ++ b) pat = true := by
  unfold strContains at h ⊢
  rw [String.data_append]
  exact containsSub_append_right _ h

theorem strContains_self (s : String) : strContains s s = true :=
  containsSub_self _

theorem matchedFields_nil (f : Form) : Part001.matchedFields [] f = [] := by
  simp [Part001.matchedFields]

theorem formTestsFor_nil (f : Form) : Part001.formTestsFor [] f = .ok [] := by
  unfold Part001.formTestsFor
  rw [matchedFields_nil]
  dsimp only
  cases Part001.submitName [] f <;> rfl

theorem allFormTests_nil_em (fs : List Form) :
    Part001.allFormTests [] fs = .ok [] := by
  induction fs with
  | nil => rfl
  | cons f t ih => simp [Part001.allFormTests, formTestsFor_nil, ih]

/-- C9: for a document with zero interactive elements, generation completes:
the locator map and getters are empty, and the class still carries the
unconditional utility methods, home navigation (navigateToHome) and page
load verification (verifyPageLoaded) parameterized by the URL's host; test
generation succeeds as well. -/
theorem c9_empty_document (d : Doc) (u : Url)
    (hb : d.buttons = []) (hi : d.inputs = []) (hl : d.links = [])
    (hs : d.selects = []) (ht : d.textareas = []) :
    (Part001.generatePageObjectClass d u none).elements = []
    ∧ (Part001.generatePageObjectClass d u none).getters = []
    ∧ Part001.commonWorkflowStr u ∈ (Part001.generatePageObjectClass d u none).workflowMethods
    ∧ strContains (Part001.commonWorkflowStr u) "navigateToHome" = true
    ∧ strContains (Part001.commonWorkflowStr u) "verifyPageLoaded" = true
    ∧ strContains (Part001.commonWorkflowStr u) u.hostname = true
    ∧ exceptIsOk (Part001.generateCypressTests
        (Part001.generatePageObjectClass d u none) d u) = true := by
  have hgens : Part001.elemGens d = [] := by
    unfold Part001.elemGens
    rw [hb, hi, hl, hs, ht]
    rfl
  have hel : (Part001.generatePageObjectClass d u none).elements
      = (Part001.elemGens d).map (·.entry) := rfl
  have hget : (Part001.generatePageObjectClass d u none).getters
      = ((Part001.elemGens d).map (·.getters)).flatten := rfl
  have hwf : (Part001.generatePageObjectClass d u none).workflowMethods
      = Part001.workflowMethodsFor d u := rfl
  have hmeta : (Part001.generatePageObjectClass d u none).elementMeta
      = ((Part001.elemGens d).map (·.meta)).flatten := rfl
  refine ⟨?_, ?_, ?_, ?_, ?_, ?_, ?_⟩
  · rw [hel, hgens]; rfl
  · rw [hget, hgens]; rfl
  · rw [hwf]
    unfold Part001.workflowMethodsFor
    simp
  · have h0 : strContains Part001.commonWorkflowPre "navigateToHome" = true := by rfl
    unfold Part001.commonWorkflowStr
    exact strContains_append_left _ _ (strContains_append_left _ _ h0)
  · have h0 : strContains Part001.commonWorkflowPre "verifyPageLoaded" = true := by rfl
    unfold Part001.commonWorkflowStr
    exact strContains_append_left _ _ (strContains_append_left _ _ h0)
  · unfold Part001.commonWorkflowStr
    exact strContains_append_left _ _
      (strContains_append_right _ _ (strContains_self u.hostname))
  · have hm0 : (Part001.generatePageObjectClass d u none).elementMeta = [] := by
      rw [hmeta, hgens]; rfl
    unfold Part001.generateCypressTests
    rw [hm0, allFormTests_nil_em]
    rfl

/-- Witness for c9_empty_document at the concrete empty document. -/
theorem c9_empty_document_witness :
    (exEmptyDoc.buttons = [] ∧ exEmptyDoc.inputs = [] ∧ exEmptyDoc.links = []
      ∧ exEmptyDoc.selects = [] ∧ exEmptyDoc.textareas = [])
    ∧ (Part001.generatePageObjectClass exEmptyDoc exUrl none).elements = [] :=
  ⟨⟨rfl, rfl, rfl, rfl, rfl⟩,
    (c9_empty_document exEmptyDoc exUrl rfl rfl rfl rfl rfl).1⟩
